import Mathlib

/-!
Shallow embedding of the midwife-backend Express service (src/index.js, the
zod-based revision). The MongoDB users and reports collections are modelled
as Lean lists of documents in insertion order; `find` returns the list,
`findOne` is `List.find?`, `insertOne` appends, `updateOne` rewrites the
first matching document, and `sort createdAt -1` is a merge sort by the
`createdAt` millisecond timestamp, descending. bcrypt is modelled by an
abstract hash function `hash : String → String` passed as a parameter;
`bcrypt.compare pw stored` becomes `hash pw == stored`. The zod email
validator is likewise an abstract predicate parameter `isEmail`. Request
bodies are records of `Option` fields so that absent JSON fields are
representable.
-/

namespace Midwife

/-- Geolocation object, zod `location: { lat: z.number(), lng: z.number() }`.
JSON numbers are modelled as integers. -/
structure GeoLocation where
  lat : Int
  lng : Int
  deriving DecidableEq, Repr

/-- A stored document of the users collection, exactly the object built by
POST /api/v1/register: name, email, password (the bcrypt hash), location,
designation, institution, mobileNumber, role, isVerified, createdAt. The
isBlocked field is absent on a freshly registered user (modelled as `Option`
with `none` = absent); only the admin block endpoint sets it. -/
structure Account where
  name : String
  email : String
  password : String
  location : GeoLocation
  designation : String
  institution : String
  mobileNumber : String
  role : String
  isVerified : Bool
  isBlocked : Option Bool
  createdAt : Int
  deriving DecidableEq, Repr

/-- A stored document of the reports collection. `rid` models the Mongo
`_id`. The resolution fields solution, solverName, solvedAt are absent
(`none`) until the PATCH resolve endpoint sets them. -/
structure Report where
  rid : Nat
  name : String
  mobileNumber : String
  address : String
  location : GeoLocation
  cause : String
  otherCause : Option String
  createdAt : Int
  isSolved : Bool
  solution : Option String
  solverName : Option String
  solvedAt : Option Int
  deriving DecidableEq, Repr

/-- Raw JSON body of POST /api/v1/register; every field may be absent. -/
structure RegisterBody where
  name : Option String
  email : Option String
  password : Option String
  confirmPassword : Option String
  location : Option GeoLocation
  designation : Option String
  institution : Option String
  mobileNumber : Option String
  deriving DecidableEq, Repr

/-- Output of a successful `registerSchema.parse`: all fields present. -/
structure RegisterData where
  name : String
  email : String
  password : String
  confirmPassword : String
  location : GeoLocation
  designation : String
  institution : String
  mobileNumber : String
  deriving DecidableEq, Repr

/-- The mobileNumber check of registerSchema: regex `^\d{11}$`. -/
def isMobileNumber (s : String) : Bool :=
  s.length == 11 && s.toList.all (fun c => c.isDigit)

/-- The zod registerSchema: name `z.string().min(1)`, email
`z.string().email()` (the library validator is the abstract parameter
`isEmail`), password and confirmPassword `z.string().min(6)`, location an
object of two numbers, designation `z.string()` (note: present but with no
minimum length and no `.optional()`), institution `z.string()`, mobileNumber
matching `^\d{11}$`. Returns `none` when any field is absent or any check
fails, mirroring a thrown ZodError. -/
def parseRegister (isEmail : String → Bool) (b : RegisterBody) :
    Option RegisterData :=
  b.name.bind fun name =>
  b.email.bind fun email =>
  b.password.bind fun password =>
  b.confirmPassword.bind fun confirm =>
  b.location.bind fun loc =>
  b.designation.bind fun desig =>
  b.institution.bind fun inst =>
  b.mobileNumber.bind fun mobile =>
  if 1 ≤ name.length ∧ isEmail email = true ∧ 6 ≤ password.length ∧
      6 ≤ confirm.length ∧ isMobileNumber mobile = true then
    some ⟨name, email, password, confirm, loc, desig, inst, mobile⟩
  else
    none

/-- Result of the register endpoint. `schemaError` is the 400 response whose
message is the ZodError text (the text itself comes from the zod library and
is not modelled); `failure` carries the literal message strings of the code;
`created` is the 201 response. -/
inductive RegisterResult where
  | schemaError (status : Nat)
  | failure (status : Nat) (message : String)
  | created (status : Nat) (message : String)
  deriving DecidableEq, Repr

/-- Mongo `collection.findOne({ email })` on the users collection. -/
def findUser (db : List Account) (email : String) : Option Account :=
  db.find? (fun a => a.email == email)

/-- The document inserted by register for validated data `d`. -/
def mkAccount (hash : String → String) (now : Int) (d : RegisterData) :
    Account :=
  { name := d.name
    email := d.email
    password := hash d.password
    location := d.location
    designation := d.designation
    institution := d.institution
    mobileNumber := d.mobileNumber
    role := "user"
    isVerified := false
    isBlocked := none
    createdAt := now }

/-- POST /api/v1/register: zod parse, then password == confirmPassword,
then duplicate email check via findOne, then bcrypt.hash and insertOne.
Returns the HTTP result together with the users collection afterwards. -/
def register (hash : String → String) (isEmail : String → Bool) (now : Int)
    (db : List Account) (body : RegisterBody) :
    RegisterResult × List Account :=
  match parseRegister isEmail body with
  | none => (.schemaError 400, db)
  | some d =>
    if d.password ≠ d.confirmPassword then
      (.failure 400 "Passwords do not match", db)
    else
      match findUser db d.email with
      | some _ => (.failure 400 "User already exists", db)
      | none =>
        (.created 201
          "User registered successfully. Please verify your email or phone number.",
          db ++ [mkAccount hash now d])

/-- Claim set placed in the JWT and echoed in the login response body:
email, role, isVerified, isBlocked (absent for never-blocked users). -/
structure LoginClaims where
  email : String
  role : String
  isVerified : Bool
  isBlocked : Option Bool
  deriving DecidableEq, Repr

/-- Result of the login endpoint. -/
inductive LoginResult where
  | err (status : Nat) (message : String)
  | ok (status : Nat) (message : String) (claims : LoginClaims)
  deriving DecidableEq, Repr

/-- POST /api/v1/login: findOne by email, 401 if absent, bcrypt.compare,
401 if mismatch, then 403 if `user.isBlocked` is truthy (an absent field is
falsy), else 200 with the signed claim set. -/
def login (hash : String → String) (db : List Account)
    (email password : String) : LoginResult :=
  match findUser db email with
  | none => .err 401 "Invalid email or password"
  | some user =>
    if !(hash password == user.password) then
      .err 401 "Invalid email or password"
    else if user.isBlocked.getD false then
      .err 403 "Your account is on hold"
    else
      .ok 200 "Login successful"
        { email := user.email, role := user.role,
          isVerified := user.isVerified, isBlocked := user.isBlocked }

/-- Mongo `updateOne(filter, update)`: rewrite the first document matching
the filter, leave everything else untouched. A miss is a no-op. -/
def updateFirst (p : α → Bool) (f : α → α) : List α → List α
  | [] => []
  | x :: xs => if p x then f x :: xs else x :: updateFirst p f xs

/-- Result of an endpoint whose success body is only a message. -/
inductive ApiResult where
  | failure (status : Nat) (message : String)
  | ok (status : Nat) (message : String)
  deriving DecidableEq, Repr

/-- PATCH /api/v1/admin/block-user/:email: findOne, 404 if absent, else one
updateOne with `$set { isBlocked, isVerified }` applying both flags in a
single storage operation. -/
def blockUser (db : List Account) (email : String)
    (isBlocked isVerified : Bool) : ApiResult × List Account :=
  match findUser db email with
  | none => (.failure 404 "User not found", db)
  | some _ =>
    (.ok 200 "User status updated successfully",
      updateFirst (fun a => a.email == email)
        (fun a => { a with isBlocked := some isBlocked,
                           isVerified := isVerified }) db)

/-- A users document after the destructuring `{ password, ...user }`: every
field of Account except password. The type has no password field at all, so
no value of it can carry one. -/
structure SanitizedAccount where
  name : String
  email : String
  location : GeoLocation
  designation : String
  institution : String
  mobileNumber : String
  role : String
  isVerified : Bool
  isBlocked : Option Bool
  createdAt : Int
  deriving DecidableEq, Repr

/-- The rest-spread `({ password, ...user }) => user`: drop password, keep
every other field. -/
def sanitize (a : Account) : SanitizedAccount :=
  { name := a.name
    email := a.email
    location := a.location
    designation := a.designation
    institution := a.institution
    mobileNumber := a.mobileNumber
    role := a.role
    isVerified := a.isVerified
    isBlocked := a.isBlocked
    createdAt := a.createdAt }

/-- Mongo `find().sort({ createdAt: -1 })` on the users collection. -/
def sortUsersDesc (db : List Account) : List Account :=
  db.mergeSort (fun a b => decide (b.createdAt ≤ a.createdAt))

/-- GET /api/v1/admin/users: fetch all users sorted by createdAt descending
and strip the password from every record. -/
def adminListUsers (db : List Account) : List SanitizedAccount :=
  (sortUsersDesc db).map sanitize

/-- Response of GET /api/v1/admin/recent-users: two windows, both computed
from the same `now`. -/
structure RecentUsersResp where
  last30MinutesUsers : List Account
  last24HoursUsers : List Account
  deriving DecidableEq, Repr

/-- GET /api/v1/admin/recent-users: two `find({ createdAt: { $gte: t } })`
queries against the raw users collection, thirty minutes and twenty-four
hours before `now`. No sanitization is applied to either result. -/
def recentUsers (now : Int) (db : List Account) : RecentUsersResp :=
  { last30MinutesUsers :=
      db.filter (fun a => decide (now - 30 * 60 * 1000 ≤ a.createdAt))
    last24HoursUsers :=
      db.filter (fun a => decide (now - 24 * 60 * 60 * 1000 ≤ a.createdAt)) }

/-- Response of GET /api/v1/reports. -/
structure ReportsResp where
  allReportsCount : Nat
  allReports : List Report
  last24HoursReports : List Report
  deriving DecidableEq, Repr

/-- Mongo `find().sort({ createdAt: -1 })` on the reports collection. -/
def sortReportsDesc (db : List Report) : List Report :=
  db.mergeSort (fun a b => decide (b.createdAt ≤ a.createdAt))

/-- GET /api/v1/reports: fetch all reports sorted by createdAt descending,
then filter that same array by `createdAt >= now - 24h` for the 24-hour
subset; the count is the length of the full array. -/
def getReports (now : Int) (db : List Report) : ReportsResp :=
  let allReports := sortReportsDesc db
  { allReportsCount := allReports.length
    allReports := allReports
    last24HoursReports :=
      allReports.filter
        (fun r => decide (now - 24 * 60 * 60 * 1000 ≤ r.createdAt)) }

/-- Raw JSON body of PATCH /api/v1/reports/:reportId; fields may be absent. -/
structure ResolveBody where
  isSolved : Option Bool
  solution : Option String
  solverName : Option String
  deriving DecidableEq, Repr

/-- JS truthiness of a boolean-or-absent field: absent and false are falsy. -/
def jsTruthyBool : Option Bool → Bool
  | some b => b
  | none => false

/-- JS truthiness of a string-or-absent field: absent and "" are falsy. -/
def jsTruthyStr : Option String → Bool
  | some s => !(s == "")
  | none => false

/-- Mongo `findOne({ _id: reportId })` on the reports collection. -/
def findReport (db : List Report) (reportId : Nat) : Option Report :=
  db.find? (fun r => r.rid == reportId)

/-- Result of the resolve endpoint; `ok` carries the re-fetched report of
the response body (null when the re-fetch misses). -/
inductive ResolveResult where
  | failure (status : Nat) (message : String)
  | ok (status : Nat) (message : String) (report : Option Report)
  deriving DecidableEq, Repr

/-- PATCH /api/v1/reports/:reportId: the guard
`!isSolved or !solution or !solverName` rejects with 400 before any storage
access; then updateOne sets isSolved (the supplied value), solution,
solverName and `solvedAt = now` in one `$set`; a zero matchedCount is 404
(the updateOne was then a no-op, modelled by checking the match first); on
success the report is fetched again and returned. -/
def resolveReport (now : Int) (db : List Report) (reportId : Nat)
    (body : ResolveBody) : ResolveResult × List Report :=
  if !(jsTruthyBool body.isSolved) || !(jsTruthyStr body.solution) ||
      !(jsTruthyStr body.solverName) then
    (.failure 400 "isSolved, solution, and solverName are required", db)
  else
    match findReport db reportId with
    | none => (.failure 404 "Report not found", db)
    | some _ =>
      let db1 := updateFirst (fun r => r.rid == reportId)
        (fun r => { r with
          isSolved := jsTruthyBool body.isSolved
          solution := body.solution
          solverName := body.solverName
          solvedAt := some now }) db
      (.ok 200 "Report updated successfully" (findReport db1 reportId), db1)

/-- Helper: an updateOne hit rewrites the first match, and a findOne with
the same filter afterwards returns the rewritten document, provided the
rewrite preserves the filter. -/
theorem find?_updateFirst_of_found {α : Type} (p : α → Bool) (f : α → α)
    (l : List α) (r : α) (h : l.find? p = some r) (hf : p (f r) = true) :
    (updateFirst p f l).find? p = some (f r) := by
  induction l with
  | nil => cases h
  | cons x xs ih =>
    by_cases hx : p x = true
    · rw [List.find?_cons_of_pos _ hx] at h
      injection h with h
      subst h
      unfold updateFirst
      rw [if_pos hx]
      exact List.find?_cons_of_pos _ hf
    · rw [List.find?_cons_of_neg _ hx] at h
      unfold updateFirst
      rw [if_neg hx]
      rw [List.find?_cons_of_neg _ hx]
      exact ih h

/-- Helper: every document present after an updateOne is either an untouched
document of the old collection or the rewrite of a matching old document;
no third shape (such as a half-updated document) exists. -/
theorem mem_updateFirst {α : Type} (p : α → Bool) (f : α → α)
    (l : List α) (a : α) (h : a ∈ updateFirst p f l) :
    a ∈ l ∨ ∃ b, b ∈ l ∧ p b = true ∧ a = f b := by
  induction l with
  | nil => cases h
  | cons x xs ih =>
    unfold updateFirst at h
    by_cases hx : p x = true
    · rw [if_pos hx] at h
      rcases List.mem_cons.mp h with h | h
      · exact Or.inr ⟨x, List.mem_cons_self .., hx, h⟩
      · exact Or.inl (List.mem_cons_of_mem _ h)
    · rw [if_neg hx] at h
      rcases List.mem_cons.mp h with h | h
      · exact Or.inl (h ▸ List.mem_cons_self ..)
      · rcases ih h with h | ⟨b, hb, hpb, hab⟩
        · exact Or.inl (List.mem_cons_of_mem _ h)
        · exact Or.inr ⟨b, List.mem_cons_of_mem _ hb, hpb, hab⟩

/-- Concrete stand-in for bcrypt hashing, used only to instantiate the
abstract hash parameter in closed witnesses. -/
def hash0 : String → String := fun s => "h:" ++ s

/-- Concrete stand-in for the zod email validator, used only in closed
witnesses: accepts a string containing an at sign. -/
def isEmail0 : String → Bool := fun s => s.toList.any (fun c => c == '@')

/-- A concrete stored account as register would create it. -/
def acct0 : Account :=
  { name := "A"
    email := "a@x.com"
    password := hash0 "secret1"
    location := { lat := 1, lng := 2 }
    designation := "D"
    institution := "I"
    mobileNumber := "01712345678"
    role := "user"
    isVerified := false
    isBlocked := none
    createdAt := 0 }

/-- The same account after an admin block action. -/
def acctB : Account :=
  { acct0 with isBlocked := some true }

/-- C2: a login that fails because no account has the email and a login
that fails because the stored hash does not match the password return the
same status 401 and the same message "Invalid email or password", so the
two causes are indistinguishable to the caller. -/
theorem login_failures_indistinguishable (hash : String → String)
    (db db2 : List Account) (e p e2 p2 : String) (u : Account)
    (h1 : findUser db e = none) (h2 : findUser db2 e2 = some u)
    (h3 : hash p2 ≠ u.password) :
    login hash db e p = LoginResult.err 401 "Invalid email or password" ∧
    login hash db2 e2 p2 = LoginResult.err 401 "Invalid email or password" ∧
    login hash db e p = login hash db2 e2 p2 := by
  have ha : login hash db e p = .err 401 "Invalid email or password" := by
    unfold login
    rw [h1]
  have hb : login hash db2 e2 p2 = .err 401 "Invalid email or password" := by
    unfold login
    rw [h2]
    simp [h3]
  exact ⟨ha, hb, ha.trans hb.symm⟩

/-- Witness for C2: unknown email on an empty store versus wrong password
against a stored account. -/
theorem login_failures_indistinguishable_witness :
    login hash0 [] "b@x.com" "pw" =
      LoginResult.err 401 "Invalid email or password" ∧
    login hash0 [acct0] "a@x.com" "wrong1" =
      LoginResult.err 401 "Invalid email or password" ∧
    login hash0 [] "b@x.com" "pw" = login hash0 [acct0] "a@x.com" "wrong1" :=
  login_failures_indistinguishable hash0 [] [acct0] "b@x.com" "pw"
    "a@x.com" "wrong1" acct0 (by decide) (by decide) (by decide)

/-- C3: on an account with isBlocked = true, a correct password yields the
distinct 403 blocked error, while a wrong password still yields the 401
invalid-credentials error, because the blocked check runs only after the
credentials are confirmed. -/
theorem login_blocked_checked_after_credentials (hash : String → String)
    (db : List Account) (e p q : String) (u : Account)
    (h1 : findUser db e = some u) (h2 : u.isBlocked = some true) :
    (hash p = u.password →
      login hash db e p = LoginResult.err 403 "Your account is on hold") ∧
    (hash q ≠ u.password →
      login hash db e q = LoginResult.err 401 "Invalid email or password") := by
  constructor
  · intro hp
    unfold login
    rw [h1]
    simp [hp, h2]
  · intro hq
    unfold login
    rw [h1]
    simp [hq]

/-- Witness for C3: the blocked account rejects the correct password with
403 and a wrong password with 401. -/
theorem login_blocked_checked_after_credentials_witness :
    login hash0 [acctB] "a@x.com" "secret1" =
      LoginResult.err 403 "Your account is on hold" ∧
    login hash0 [acctB] "a@x.com" "wrong1" =
      LoginResult.err 401 "Invalid email or password" := by
  have h := login_blocked_checked_after_credentials hash0 [acctB]
    "a@x.com" "secret1" "wrong1" acctB (by decide) (by decide)
  exact ⟨h.1 (by decide), h.2 (by decide)⟩

/-- A concrete register body that passes the full zod schema. -/
def body0 : RegisterBody :=
  { name := some "A"
    email := some "a@x.com"
    password := some "secret1"
    confirmPassword := some "secret1"
    location := some { lat := 1, lng := 2 }
    designation := some "D"
    institution := some "I"
    mobileNumber := some "01712345678" }

/-- The validated data that parsing body0 yields. -/
def data0 : RegisterData :=
  { name := "A"
    email := "a@x.com"
    password := "secret1"
    confirmPassword := "secret1"
    location := { lat := 1, lng := 2 }
    designation := "D"
    institution := "I"
    mobileNumber := "01712345678" }

/-- C1: when a registration passes the schema and the password check but an
account with the same email is already stored, the endpoint answers 400
"User already exists", the users collection is returned unchanged, no
insert happens (the length is preserved), and if exactly one account with
that email existed before then exactly one exists afterwards. -/
theorem register_duplicate_email_conflict (hash : String → String)
    (isEmail : String → Bool) (now : Int) (db : List Account)
    (body : RegisterBody) (d : RegisterData) (u : Account)
    (hp : parseRegister isEmail body = some d)
    (hpw : d.password = d.confirmPassword)
    (hu : findUser db d.email = some u) :
    register hash isEmail now db body =
      (.failure 400 "User already exists", db) ∧
    (register hash isEmail now db body).2.length = db.length ∧
    (db.countP (fun a => a.email == d.email) = 1 →
      (register hash isEmail now db body).2.countP
        (fun a => a.email == d.email) = 1) := by
  have h : register hash isEmail now db body =
      (.failure 400 "User already exists", db) := by
    unfold register
    rw [hp]
    simp [hpw, hu]
  refine ⟨h, ?_, ?_⟩
  · rw [h]
  · intro h1
    rw [h]
    exact h1

/-- Witness for C1: registering body0 against a store already holding the
account with its email. -/
theorem register_duplicate_email_conflict_witness :
    register hash0 isEmail0 1 [acct0] body0 =
      (.failure 400 "User already exists", [acct0]) ∧
    (register hash0 isEmail0 1 [acct0] body0).2.length = 1 ∧
    (register hash0 isEmail0 1 [acct0] body0).2.countP
      (fun a => a.email == data0.email) = 1 := by
  have h := register_duplicate_email_conflict hash0 isEmail0 1 [acct0] body0
    data0 acct0 (by decide) (by decide) (by decide)
  exact ⟨h.1, h.2.1, h.2.2 (by decide)⟩

/-- C4: a valid registration stores exactly the document whose password
field is the hash of the plaintext, and a following login with the same
email and the original plaintext succeeds with the claim set of the new
account. The hash function is abstract, so the proof holds for every
one-way hash. -/
theorem register_login_roundtrip (hash : String → String)
    (isEmail : String → Bool) (now : Int) (db : List Account)
    (body : RegisterBody) (d : RegisterData)
    (hp : parseRegister isEmail body = some d)
    (hpw : d.password = d.confirmPassword)
    (hf : findUser db d.email = none) :
    register hash isEmail now db body =
      (.created 201
        "User registered successfully. Please verify your email or phone number.",
       db ++ [mkAccount hash now d]) ∧
    (mkAccount hash now d).password = hash d.password ∧
    login hash (db ++ [mkAccount hash now d]) d.email d.password =
      LoginResult.ok 200 "Login successful"
        { email := d.email, role := "user", isVerified := false,
          isBlocked := none } := by
  refine ⟨?_, rfl, ?_⟩
  · unfold register
    rw [hp]
    simp [hpw, hf]
  · unfold login findUser
    unfold findUser at hf
    have hm : List.find? (fun a => a.email == d.email)
        [mkAccount hash now d] = some (mkAccount hash now d) :=
      List.find?_cons_of_pos _ (by simp [mkAccount])
    rw [List.find?_append, hf, hm]
    simp [Option.none_or, mkAccount]

/-- Witness for C4: register body0 on an empty store, then log in with the
original plaintext. -/
theorem register_login_roundtrip_witness :
    register hash0 isEmail0 0 [] body0 =
      (.created 201
        "User registered successfully. Please verify your email or phone number.",
       [mkAccount hash0 0 data0]) ∧
    (mkAccount hash0 0 data0).password = hash0 "secret1" ∧
    login hash0 [mkAccount hash0 0 data0] "a@x.com" "secret1" =
      LoginResult.ok 200 "Login successful"
        { email := "a@x.com", role := "user", isVerified := false,
          isBlocked := none } := by
  have h := register_login_roundtrip hash0 isEmail0 0 [] body0 data0
    (by decide) (by decide) (by decide)
  exact ⟨h.1, h.2.1, h.2.2⟩

/-- A register body that is valid in every respect except that the
designation field is absent. -/
def bodyNoDesig : RegisterBody :=
  { name := some "A"
    email := some "a@x.com"
    password := some "secret1"
    confirmPassword := some "secret1"
    location := some { lat := 1, lng := 2 }
    designation := none
    institution := some "I"
    mobileNumber := some "01712345678" }

/-- Counterexample for C5: a candidate meeting every other constraint but
omitting designation is rejected by the schema with 400 and no account is
created, because registerSchema declares designation as a required string,
not an optional one. The claim that such a registration succeeds is false. -/
theorem register_missing_designation_counterexample :
    (bodyNoDesig.name = some "A" ∧ 1 ≤ "A".length) ∧
    (bodyNoDesig.email = some "a@x.com" ∧ isEmail0 "a@x.com" = true) ∧
    (bodyNoDesig.password = some "secret1" ∧ 6 ≤ "secret1".length ∧
      bodyNoDesig.confirmPassword = some "secret1") ∧
    bodyNoDesig.location = some { lat := 1, lng := 2 } ∧
    (bodyNoDesig.institution = some "I" ∧
      bodyNoDesig.mobileNumber = some "01712345678" ∧
      isMobileNumber "01712345678" = true) ∧
    bodyNoDesig.designation = none ∧
    register hash0 isEmail0 0 [] bodyNoDesig =
      (.schemaError 400, []) := by
  decide

/-- C5 amended: designation is required by registerSchema, so a register
body with the designation field absent always fails schema validation with
a 400 response, whatever the other fields hold, and the store is unchanged. -/
theorem register_missing_designation_rejected (hash : String → String)
    (isEmail : String → Bool) (now : Int) (db : List Account)
    (body : RegisterBody) (h : body.designation = none) :
    register hash isEmail now db body = (.schemaError 400, db) := by
  have hp : parseRegister isEmail body = none := by
    rcases body with ⟨bn, be, bp, bc, bl, bd, bi, bm⟩
    dsimp only at h
    subst h
    unfold parseRegister
    cases bn <;> cases be <;> cases bp <;> cases bc <;> cases bl <;> simp
  unfold register
  rw [hp]

/-- Witness for the amended C5 at the concrete body. -/
theorem register_missing_designation_rejected_witness :
    register hash0 isEmail0 0 [] bodyNoDesig =
      (RegisterResult.schemaError 400, []) :=
  register_missing_designation_rejected hash0 isEmail0 0 [] bodyNoDesig rfl

/-- C6: on an existing report, a resolve body whose three fields are all
present and truthy makes the endpoint rewrite that report with isSolved
true, the supplied solution and solverName, and solvedAt = now, all in the
single updateOne, and return exactly the updated record; a body with any
of the three fields missing or falsy is rejected with 400 before any
storage access, leaving the collection unchanged. -/
theorem resolveReport_validation_and_update (now : Int) (db : List Report)
    (rid : Nat) (body : ResolveBody) (r : Report)
    (hr : findReport db rid = some r) :
    ((jsTruthyBool body.isSolved && jsTruthyStr body.solution &&
        jsTruthyStr body.solverName) = true →
      resolveReport now db rid body =
        (.ok 200 "Report updated successfully"
          (some { r with
            isSolved := true
            solution := body.solution
            solverName := body.solverName
            solvedAt := some now }),
         updateFirst (fun x => x.rid == rid)
           (fun x => { x with
             isSolved := jsTruthyBool body.isSolved
             solution := body.solution
             solverName := body.solverName
             solvedAt := some now }) db)) ∧
    ((jsTruthyBool body.isSolved && jsTruthyStr body.solution &&
        jsTruthyStr body.solverName) = false →
      resolveReport now db rid body =
        (.failure 400 "isSolved, solution, and solverName are required",
         db)) := by
  constructor
  · intro ht
    obtain ⟨⟨h1, h2⟩, h3⟩ : (jsTruthyBool body.isSolved = true ∧
        jsTruthyStr body.solution = true) ∧
        jsTruthyStr body.solverName = true := by
      simpa [Bool.and_eq_true] using ht
    have hc : (!(jsTruthyBool body.isSolved) ||
        !(jsTruthyStr body.solution) ||
        !(jsTruthyStr body.solverName)) = false := by
      rw [h1, h2, h3]
      rfl
    have hfr : findReport (updateFirst (fun x => x.rid == rid)
        (fun x => { x with
          isSolved := jsTruthyBool body.isSolved
          solution := body.solution
          solverName := body.solverName
          solvedAt := some now }) db) rid =
        some { r with
          isSolved := jsTruthyBool body.isSolved
          solution := body.solution
          solverName := body.solverName
          solvedAt := some now } := by
      unfold findReport at hr ⊢
      exact find?_updateFirst_of_found (fun x => x.rid == rid)
        (fun x => { x with
          isSolved := jsTruthyBool body.isSolved
          solution := body.solution
          solverName := body.solverName
          solvedAt := some now }) db r hr (by simpa using List.find?_some hr)
    unfold resolveReport
    rw [hc]
    simp only [Bool.false_eq_true, if_false]
    rw [hr]
    rw [h1] at hfr
    simp [hfr, h1]
  · intro hf3
    have hc : (!(jsTruthyBool body.isSolved) ||
        !(jsTruthyStr body.solution) ||
        !(jsTruthyStr body.solverName)) = true := by
      cases hb : jsTruthyBool body.isSolved <;>
        cases hs : jsTruthyStr body.solution <;>
          cases hn : jsTruthyStr body.solverName <;> simp_all
    unfold resolveReport
    rw [hc]
    simp

/-- A concrete open report. -/
def rpt0 : Report :=
  { rid := 1
    name := "R"
    mobileNumber := "01712345678"
    address := "Addr"
    location := { lat := 1, lng := 2 }
    cause := "flood"
    otherCause := none
    createdAt := 0
    isSolved := false
    solution := none
    solverName := none
    solvedAt := none }

/-- A resolve body with all three fields present and truthy. -/
def goodResolveBody : ResolveBody :=
  { isSolved := some true, solution := some "fixed", solverName := some "S" }

/-- A resolve body whose solution field is absent. -/
def badResolveBody : ResolveBody :=
  { isSolved := some true, solution := none, solverName := some "S" }

/-- Witness for C6: a complete body resolves the stored report, a body
missing the solution is rejected with the collection unchanged. -/
theorem resolveReport_validation_and_update_witness :
    resolveReport 7 [rpt0] 1 goodResolveBody =
      (.ok 200 "Report updated successfully"
        (some { rpt0 with
          isSolved := true
          solution := some "fixed"
          solverName := some "S"
          solvedAt := some 7 }),
       updateFirst (fun x => x.rid == 1)
         (fun x => { x with
            isSolved := jsTruthyBool goodResolveBody.isSolved,
            solution := goodResolveBody.solution,
            solverName := goodResolveBody.solverName,
            solvedAt := some 7 }) [rpt0]) ∧
    resolveReport 7 [rpt0] 1 badResolveBody =
      (.failure 400 "isSolved, solution, and solverName are required",
       [rpt0]) := by
  refine ⟨?_, ?_⟩
  · exact (resolveReport_validation_and_update 7 [rpt0] 1 goodResolveBody
      rpt0 (by decide)).1 (by decide)
  · exact (resolveReport_validation_and_update 7 [rpt0] 1 badResolveBody
      rpt0 (by decide)).2 (by decide)

/-- C7: the block endpoint answers 404 and leaves the store untouched when
no account has the email; otherwise it applies isBlocked and isVerified to
the stored account in one update that keeps every other field (the record
update rewrites only the two flags), and every document in the resulting
store is either an untouched old document or the fully updated target, so
no observable state has one flag applied without the other. -/
theorem blockUser_atomic_frame (db : List Account) (email : String)
    (b v : Bool) :
    (findUser db email = none →
      blockUser db email b v = (.failure 404 "User not found", db)) ∧
    (∀ u, findUser db email = some u →
      (blockUser db email b v).1 =
        .ok 200 "User status updated successfully" ∧
      findUser (blockUser db email b v).2 email =
        some { u with isBlocked := some b, isVerified := v } ∧
      ∀ a ∈ (blockUser db email b v).2,
        a ∈ db ∨ ∃ w, w ∈ db ∧ w.email = email ∧
          a = { w with isBlocked := some b, isVerified := v }) := by
  constructor
  · intro h
    unfold blockUser
    rw [h]
  · intro u hu
    have hb : blockUser db email b v =
        (.ok 200 "User status updated successfully",
         updateFirst (fun a => a.email == email)
           (fun a => { a with isBlocked := some b, isVerified := v }) db) := by
      unfold blockUser
      rw [hu]
    refine ⟨by rw [hb], ?_, ?_⟩
    · rw [hb]
      unfold findUser at hu ⊢
      exact find?_updateFirst_of_found (fun a => a.email == email)
        (fun a => { a with isBlocked := some b, isVerified := v })
        db u hu (by simpa using List.find?_some hu)
    · intro a ha
      rw [hb] at ha
      rcases mem_updateFirst _ _ db a ha with h | ⟨w, hw, hpw, haw⟩
      · exact Or.inl h
      · exact Or.inr ⟨w, hw, by simpa using hpw, haw⟩

/-- Witness for C7 on a store holding one account. -/
theorem blockUser_atomic_frame_witness :
    (blockUser [acct0] "a@x.com" true true).1 =
      ApiResult.ok 200 "User status updated successfully" ∧
    findUser (blockUser [acct0] "a@x.com" true true).2 "a@x.com" =
      some { acct0 with isBlocked := some true, isVerified := true } := by
  have h := (blockUser_atomic_frame [acct0] "a@x.com" true true).2
    acct0 (by decide)
  exact ⟨h.1, h.2.1⟩

/-- C8: in every response of the reports listing, the 24-hour subset is the
filter of the full fetched list by createdAt, hence a sublist of it (every
element is by identity an element of the full list), and the reported count
is the length of the full list. -/
theorem getReports_subset_and_count (now : Int) (db : List Report) :
    (getReports now db).last24HoursReports =
      (getReports now db).allReports.filter
        (fun r => decide (now - 24 * 60 * 60 * 1000 ≤ r.createdAt)) ∧
    (getReports now db).last24HoursReports.Sublist
      (getReports now db).allReports ∧
    (getReports now db).allReportsCount =
      (getReports now db).allReports.length := by
  exact ⟨rfl, List.filter_sublist _, rfl⟩

/-- C9: the admin user listing is the stored accounts sorted by createdAt
descending, each passed through sanitize; its output type has no password
field at all, and sanitize ignores the password of its input, so the
stripping is unconditional for every record. -/
theorem adminListUsers_sorted_no_password (db : List Account) :
    List.Pairwise (fun u v : SanitizedAccount => v.createdAt ≤ u.createdAt)
      (adminListUsers db) ∧
    adminListUsers db = (sortUsersDesc db).map sanitize ∧
    (sortUsersDesc db).Perm db ∧
    ∀ (a : Account) (p : String),
      sanitize { a with password := p } = sanitize a := by
  refine ⟨?_, rfl, List.mergeSort_perm db _, fun a p => rfl⟩
  unfold adminListUsers sortUsersDesc
  rw [List.pairwise_map]
  have hs := @List.sorted_mergeSort Account
    (fun a b : Account => decide (b.createdAt ≤ a.createdAt))
    (fun a b c hab hbc => by
      simp only [decide_eq_true_eq] at hab hbc ⊢
      exact le_trans hbc hab)
    (fun a b => by
      rcases le_total a.createdAt b.createdAt with h | h <;> simp [h])
    db
  exact List.Pairwise.imp (fun h => of_decide_eq_true h) hs

/-- C10: the recent-users endpoint returns the two raw filter results of
the users collection, with no sanitization: every returned record is by
identity a stored account, its password field still holding the stored
hash. -/
theorem recentUsers_unsanitized (now : Int) (db : List Account) :
    (recentUsers now db).last30MinutesUsers =
      db.filter (fun a => decide (now - 30 * 60 * 1000 ≤ a.createdAt)) ∧
    (recentUsers now db).last24HoursUsers =
      db.filter (fun a => decide (now - 24 * 60 * 60 * 1000 ≤ a.createdAt)) ∧
    (∀ u ∈ (recentUsers now db).last30MinutesUsers,
      ∃ a, a ∈ db ∧ u = a ∧ u.password = a.password) ∧
    (∀ u ∈ (recentUsers now db).last24HoursUsers,
      ∃ a, a ∈ db ∧ u = a ∧ u.password = a.password) := by
  refine ⟨rfl, rfl, ?_, ?_⟩ <;>
    exact fun u hu => ⟨u, (List.mem_filter.mp hu).1, rfl, rfl⟩

/-- Witness for C10: the stored account is returned, password included. -/
theorem recentUsers_unsanitized_witness :
    ∃ a, a ∈ [acct0] ∧ acct0 = a ∧ acct0.password = a.password :=
  (recentUsers_unsanitized 0 [acct0]).2.2.1 acct0 (by decide)

end Midwife
